import Mathlib

/-!
Verification of the authentication and session-token subsystem of the
tessiture back end (Repository/Auth.repository.js, Service/Auth.service.js,
Utils/token.utils.js, Controller/Auth.controller.js and the global error
middleware).  The persistent store is modelled as a list of user rows in
table order; SQL queries become list operations; jwt and bcrypt values are
modelled symbolically (a token or hash is identified by the data that went
into producing it, so equality of encoded strings is equality of these
records); thrown JavaScript errors become an explicit error type.
-/

namespace Tessiture

deriving instance DecidableEq for Except

/-- Environment configuration: the two signing secrets read from
process.env (JWT_SECRET for access tokens, JWT_REFRESH_SECRET for refresh
tokens). -/
structure Env where
  JWT_SECRET : String
  JWT_REFRESH_SECRET : String
deriving DecidableEq, Repr

/-- Symbolic model of a signed JSON Web Token as produced by jwt.sign in
Utils/token.utils.js: a token is identified by its payload claims (id,
email, and rolId when present), the secret it was signed with, and its
issued-at and expiry timestamps in seconds.  Two jwt.sign results coincide
as strings exactly when all of these coincide. -/
structure SignedToken where
  id : Nat
  email : String
  rolId : Option Nat
  secret : String
  iat : Nat
  exp : Nat
deriving DecidableEq, Repr

/-- Symbolic model of a bcrypt hash produced by bcrypt.hash(password,
rounds): identified by the hashed password and the cost factor. -/
structure BcryptHash where
  pw : String
  rounds : Nat
deriving DecidableEq, Repr

/-- bcrypt.hash(password, rounds). -/
def bcryptHash (password : String) (rounds : Nat) : BcryptHash :=
  { pw := password, rounds := rounds }

/-- bcrypt.compare(password, hash): true exactly when the hash was produced
from this password. -/
def bcryptCompare (password : String) (h : BcryptHash) : Bool :=
  h.pw == password

/-- A row of the User table: id (primary key), email, password hash, role
id, and the single refresh-token slot (the refreshToken column, none for
SQL NULL). -/
structure UserRow where
  id : Nat
  email : String
  password : BcryptHash
  rolId : Nat
  refreshToken : Option SignedToken
deriving DecidableEq, Repr

/-- The User table in row order; SELECT ... LIMIT-like first-row access is
List.find? over this order. -/
abbrev DB := List UserRow

/-- Errors thrown by the subsystem.  The source throws plain Error values
(new Error(message)) and the jsonwebtoken library throws
JsonWebTokenError / TokenExpiredError; none of them carries a statusCode
field.  referenceError models a JavaScript ReferenceError raised by
reading an identifier that is not in scope. -/
inductive JsErr where
  | emailAlreadyInUse
  | invalidCredentials
  | invalidRefreshToken
  | invalidSignature
  | tokenExpired
  | referenceError (ident : String)
deriving DecidableEq, Repr

/-- The message carried by each error value, as written in the source. -/
def errMessage : JsErr → String
  | .emailAlreadyInUse => "Email already in use"
  | .invalidCredentials => "Invalid credentials"
  | .invalidRefreshToken => "Invalid refresh token"
  | .invalidSignature => "invalid signature"
  | .tokenExpired => "jwt expired"
  | .referenceError ident => ident ++ " is not defined"

/-- Modelled from the spec: the error taxonomy of spec section 7 (the
source defines no error classes; it throws plain Errors).  Bad
credentials and an invalid, expired or unmatched refresh token are
classified AuthenticationError. -/
def isAuthenticationError : JsErr → Bool
  | .invalidCredentials => true
  | .invalidRefreshToken => true
  | .invalidSignature => true
  | .tokenExpired => true
  | _ => false

/-- Modelled from the spec: spec section 7 classifies a duplicate email at
registration as ConflictError. -/
def isConflictError : JsErr → Bool
  | .emailAlreadyInUse => true
  | _ => false

/-- jwt.sign(payload, secret, expiresIn) evaluated at time now (seconds). -/
def jwtSign (id : Nat) (email : String) (rolId : Option Nat)
    (secret : String) (expiresInSeconds : Nat) (now : Nat) : SignedToken :=
  { id := id, email := email, rolId := rolId, secret := secret,
    iat := now, exp := now + expiresInSeconds }

/-- jwt.verify(token, secret) at time now: signature is checked first
(JsonWebTokenError on mismatch), then expiry (TokenExpiredError when now
has reached exp). -/
def jwtVerify (token : SignedToken) (secret : String) (now : Nat) :
    Except JsErr SignedToken :=
  if token.secret ≠ secret then .error .invalidSignature
  else if token.exp ≤ now then .error .tokenExpired
  else .ok token

/-- generateAccessToken (Utils/token.utils.js): signs { id, email, rolId }
with process.env.JWT_SECRET and expiresIn "15m". -/
def generateAccessToken (env : Env) (user : UserRow) (now : Nat) : SignedToken :=
  jwtSign user.id user.email (some user.rolId) env.JWT_SECRET (15 * 60) now

/-- generateRefreshToken (Utils/token.utils.js): signs { id, email } with
process.env.JWT_REFRESH_SECRET and expiresIn "7d". -/
def generateRefreshToken (env : Env) (user : UserRow) (now : Nat) : SignedToken :=
  jwtSign user.id user.email none env.JWT_REFRESH_SECRET (7 * 24 * 60 * 60) now

/-- email.toLowerCase(): per-character lowering (emails are ASCII). -/
def jsToLowerCase (s : String) : String :=
  { data := s.data.map Char.toLower }

/-- AuthRepository.findByEmail: SELECT * FROM User WHERE email = ? with the
input lower-cased; returns the first matching row or null. -/
def findByEmail (db : DB) (email : String) : Option UserRow :=
  db.find? (fun u => u.email == jsToLowerCase email)

/-- AuthRepository.saveRefreshToken: UPDATE User SET refreshToken = ?
WHERE id = ?. -/
def saveRefreshToken (db : DB) (userId : Nat) (tok : SignedToken) : DB :=
  db.map (fun u => if u.id == userId then { u with refreshToken := some tok } else u)

/-- AuthRepository.findUserByRefreshToken: SELECT * FROM User WHERE
refreshToken = ?; a NULL slot never equals the parameter. -/
def findUserByRefreshToken (db : DB) (tok : SignedToken) : Option UserRow :=
  db.find? (fun u => u.refreshToken == some tok)

/-- AuthRepository.clearRefreshToken: UPDATE User SET refreshToken = NULL
WHERE id = ?. -/
def clearRefreshToken (db : DB) (userId : Nat) : DB :=
  db.map (fun u => if u.id == userId then { u with refreshToken := none } else u)

/-- Value returned by AuthService.register on success. -/
structure RegisterResult where
  id : Nat
  email : String
deriving DecidableEq, Repr

/-- The safe user projection returned by login. -/
structure UserView where
  id : Nat
  email : String
  rolId : Nat
deriving DecidableEq, Repr

/-- Value returned by AuthService.login on success. -/
structure LoginResult where
  message : String
  accessToken : SignedToken
  refreshToken : SignedToken
  user : UserView
deriving DecidableEq, Repr

/-- Value returned by AuthService.refreshToken on success. -/
structure RefreshResult where
  accessToken : SignedToken
  refreshToken : SignedToken
deriving DecidableEq, Repr

/-- Value returned by AuthService.logout. -/
structure LogoutResult where
  message : String
deriving DecidableEq, Repr

/-- AuthService.register.  The duplicate check goes through
authRepository.findByEmail; when it passes, the source computes
bcrypt.hash(password, 10) and then evaluates pool.query(INSERT ...).
Auth.service.js never imports pool (its requires are bcryptjs,
jsonwebtoken and Utils/token.utils only, and pool is module-scoped in
DB/connection.js), so reading the free identifier pool raises
ReferenceError: pool is not defined before any row is written; the
freshly computed hash is discarded with the crash.  The second component
of the result is the table after the call. -/
def register (db : DB) (email password : String) (rolId : Option Nat) :
    Except JsErr RegisterResult × DB :=
  match findByEmail db email with
  | some _ => (.error .emailAlreadyInUse, db)
  | none =>
      let _hashedPassword := bcryptHash password 10
      let _insertRolId := match rolId with
        | some v => if v = 0 then 1 else v
        | none => 1
      (.error (.referenceError ("pool")), db)

/-- AuthService.login: looks up by email (lower-cased in the repository),
throws Error("Invalid credentials") when the row is missing or the bcrypt
comparison fails, otherwise mints the token pair, persists the refresh
token into the slot and returns tokens plus the safe projection. -/
def login (env : Env) (now : Nat) (db : DB) (email password : String) :
    Except JsErr LoginResult × DB :=
  match findByEmail db email with
  | none => (.error .invalidCredentials, db)
  | some user =>
      if bcryptCompare password user.password then
        let accessToken := generateAccessToken env user now
        let refreshTok := generateRefreshToken env user now
        let db2 := saveRefreshToken db user.id refreshTok
        (.ok { message := "Login successful", accessToken := accessToken,
               refreshToken := refreshTok,
               user := { id := user.id, email := user.email, rolId := user.rolId } },
         db2)
      else (.error .invalidCredentials, db)

/-- AuthService.refreshToken: finds the user whose slot equals the
presented token, throws Error("Invalid refresh token") when none does,
then runs jwt.verify against JWT_REFRESH_SECRET (whose exceptions
propagate), then mints a new pair and overwrites the slot with the new
refresh token. -/
def refreshTokenService (env : Env) (now : Nat) (db : DB) (oldToken : SignedToken) :
    Except JsErr RefreshResult × DB :=
  match findUserByRefreshToken db oldToken with
  | none => (.error .invalidRefreshToken, db)
  | some user =>
      match jwtVerify oldToken env.JWT_REFRESH_SECRET now with
      | .error e => (.error e, db)
      | .ok _ =>
          let accessToken := generateAccessToken env user now
          let newRefreshToken := generateRefreshToken env user now
          let db2 := saveRefreshToken db user.id newRefreshToken
          (.ok { accessToken := accessToken, refreshToken := newRefreshToken }, db2)

/-- AuthService.logout: clears the slot unconditionally and returns a
success message. -/
def logout (db : DB) (userId : Nat) : Except JsErr LogoutResult × DB :=
  (.ok { message := "Logged out successfully" }, clearRefreshToken db userId)

/-- The err object as seen by the global error-handling middleware: a
statusCode field (absent on every plain Error the services throw) and a
message. -/
structure ThrownErr where
  statusCode : Option Nat
  message : String
deriving DecidableEq, Repr

/-- How each service error reaches the middleware: a plain Error with a
message and no statusCode. -/
def toThrownErr (e : JsErr) : ThrownErr :=
  { statusCode := none, message := errMessage e }

/-- The JSON error response written by the middleware. -/
structure HttpErrorResponse where
  status : Nat
  message : String
deriving DecidableEq, Repr

/-- The global error-handling middleware: answers with err.statusCode and
err.message when the error carries a statusCode, and with
500 Internal Server Error otherwise. -/
def errorHandler (err : ThrownErr) : HttpErrorResponse :=
  match err.statusCode with
  | some c => { status := c, message := err.message }
  | none => { status := 500, message := "Internal Server Error" }

/-- A row whose slot, if filled, holds a token whose id claim is the row
id (every stored token was minted for its holder). -/
def slotOk (u : UserRow) : Bool :=
  match u.refreshToken with
  | some t => t.id == u.id
  | none => true

/-- Invariant of reachable states: every filled slot holds a token minted
for its row.  Established empty and preserved by login, refresh and
logout (preservation lemmas below). -/
abbrev SlotOwned (db : DB) : Prop :=
  ∀ u ∈ db, slotOk u = true

/-- Fixture environment with two distinct signing secrets. -/
def envW : Env := { JWT_SECRET := "acc-secret", JWT_REFRESH_SECRET := "ref-secret" }

/-- Fixture user row with an empty slot. -/
def userW : UserRow :=
  { id := 1, email := "a@b.com", password := bcryptHash "pw123456" 10,
    rolId := 1, refreshToken := none }

/-- Fixture refresh token minted for userW at time 0. -/
def t0w : SignedToken := generateRefreshToken envW userW 0

/-- Fixture row holding t0w in its slot. -/
def rowW : UserRow := { userW with refreshToken := some t0w }

/-- Fixture one-user table. -/
def dbW : DB := [rowW]

/-- The pair returned by a successful refresh of t0w against dbW at time 10. -/
def rW : RefreshResult :=
  { accessToken := generateAccessToken envW rowW 10,
    refreshToken := generateRefreshToken envW rowW 10 }

/-- The table after that refresh: the slot rotated to the new token. -/
def db2W : DB := [{ rowW with refreshToken := some (generateRefreshToken envW rowW 10) }]

theorem slotOk_id {u : UserRow} {t : SignedToken}
    (h : slotOk u = true) (ht : u.refreshToken = some t) : t.id = u.id := by
  unfold slotOk at h
  rw [ht] at h
  simpa using h

theorem slot_of_find {db : DB} {t : SignedToken} {u : UserRow}
    (h : findUserByRefreshToken db t = some u) : u.refreshToken = some t := by
  have hp := List.find?_some h
  simpa using hp

theorem mem_of_find {db : DB} {t : SignedToken} {u : UserRow}
    (h : findUserByRefreshToken db t = some u) : u ∈ db :=
  List.mem_of_find?_eq_some h

theorem slotOwned_nil : SlotOwned ([] : DB) := by
  intro u hu
  exact absurd hu (List.not_mem_nil u)

theorem slotOwned_saveRefreshToken (db : DB) (uid : Nat) (tok : SignedToken)
    (h : SlotOwned db) (htok : tok.id = uid) :
    SlotOwned (saveRefreshToken db uid tok) := by
  intro v hv
  unfold saveRefreshToken at hv
  rcases List.mem_map.mp hv with ⟨w, hw, rfl⟩
  by_cases hcase : w.id = uid
  · simp [hcase, slotOk, htok]
  · simp [hcase]
    exact h w hw

theorem slotOwned_clearRefreshToken (db : DB) (uid : Nat) (h : SlotOwned db) :
    SlotOwned (clearRefreshToken db uid) := by
  intro v hv
  unfold clearRefreshToken at hv
  rcases List.mem_map.mp hv with ⟨w, hw, rfl⟩
  by_cases hcase : w.id = uid
  · simp [hcase, slotOk]
  · simp [hcase]
    exact h w hw

theorem slotOwned_login (env : Env) (now : Nat) (db : DB) (email password : String)
    (h : SlotOwned db) : SlotOwned (login env now db email password).2 := by
  unfold login
  cases hf : findByEmail db email with
  | none => exact h
  | some user =>
      by_cases hc : bcryptCompare password user.password = true
      · simp only [hc, if_true]
        exact slotOwned_saveRefreshToken db user.id _ h rfl
      · simp only [hc, if_false]
        exact h

theorem slotOwned_refreshTokenService (env : Env) (now : Nat) (db : DB)
    (t : SignedToken) (h : SlotOwned db) :
    SlotOwned (refreshTokenService env now db t).2 := by
  unfold refreshTokenService
  cases hf : findUserByRefreshToken db t with
  | none => exact h
  | some user =>
      cases hv : jwtVerify t env.JWT_REFRESH_SECRET now with
      | error e => exact h
      | ok c => exact slotOwned_saveRefreshToken db user.id _ h rfl

theorem slotOwned_logout (db : DB) (uid : Nat) (h : SlotOwned db) :
    SlotOwned (logout db uid).2 :=
  slotOwned_clearRefreshToken db uid h

theorem slotOwned_register (db : DB) (email password : String) (rolId : Option Nat)
    (h : SlotOwned db) : SlotOwned (register db email password rolId).2 := by
  unfold register
  cases hf : findByEmail db email with
  | none => exact h
  | some user => exact h

theorem clearRefreshToken_idem (db : DB) (uid : Nat) :
    clearRefreshToken (clearRefreshToken db uid) uid = clearRefreshToken db uid := by
  unfold clearRefreshToken
  rw [List.map_map]
  apply List.map_congr_left
  intro a _
  by_cases h : a.id = uid
  · simp [Function.comp, h]
  · simp [Function.comp, h]

/-- C1: Rotation.  For a user whose refresh slot holds t0 (the row found by
refresh, with the slot-ownership invariant of reachable states), if
refresh(t0) succeeds returning a pair whose refresh token is new (distinct
from t0), then that user holds the new refresh token afterwards, and a
subsequent refresh(t0) fails with the unmatched-token error, classified
AuthenticationError by the spec taxonomy, leaving the table unchanged. -/
theorem C1_rotation (env : Env) (now now2 : Nat) (db : DB) (t0 : SignedToken)
    (u : UserRow) (r : RefreshResult) (db2 : DB)
    (hown : SlotOwned db)
    (hfind : findUserByRefreshToken db t0 = some u)
    (hok : refreshTokenService env now db t0 = (.ok r, db2))
    (hnew : r.refreshToken ≠ t0) :
    (∀ v ∈ db2, v.id = u.id → v.refreshToken = some r.refreshToken) ∧
    (∃ v ∈ db2, v.id = u.id) ∧
    refreshTokenService env now2 db2 t0 = (.error .invalidRefreshToken, db2) ∧
    isAuthenticationError .invalidRefreshToken = true := by
  have hmem : u ∈ db := mem_of_find hfind
  have hslot : u.refreshToken = some t0 := slot_of_find hfind
  have ht0id : t0.id = u.id := slotOk_id (hown u hmem) hslot
  unfold refreshTokenService at hok
  rw [hfind] at hok
  cases hver : jwtVerify t0 env.JWT_REFRESH_SECRET now with
  | error e =>
      rw [hver] at hok
      simp at hok
  | ok c =>
      rw [hver] at hok
      rw [Prod.mk.injEq] at hok
      obtain ⟨h1, h2⟩ := hok
      injection h1 with h1
      have hrt : r.refreshToken = generateRefreshToken env u now := by
        rw [← h1]
      subst h2
      refine ⟨?_, ?_, ?_, rfl⟩
      · intro v hv hvid
        unfold saveRefreshToken at hv
        rcases List.mem_map.mp hv with ⟨w, hw, rfl⟩
        by_cases hcase : w.id = u.id
        · simp [hcase, hrt]
        · simp [hcase] at hvid ⊢
      · unfold saveRefreshToken
        refine ⟨_, List.mem_map_of_mem _ hmem, ?_⟩
        simp
      · have hnone : findUserByRefreshToken
            (saveRefreshToken db u.id (generateRefreshToken env u now)) t0 = none := by
          unfold findUserByRefreshToken
          rw [List.find?_eq_none]
          intro v hv
          unfold saveRefreshToken at hv
          rcases List.mem_map.mp hv with ⟨w, hw, rfl⟩
          by_cases hcase : w.id = u.id
          · simp [hcase]
            exact hrt ▸ hnew
          · simp [hcase]
            intro hq
            have hti : t0.id = w.id := slotOk_id (hown w hw) hq
            exact absurd (hti ▸ ht0id) hcase
        unfold refreshTokenService
        rw [hnone]

theorem C1_rotation_witness :
    (∀ v ∈ db2W, v.id = rowW.id → v.refreshToken = some rW.refreshToken) ∧
    (∃ v ∈ db2W, v.id = rowW.id) ∧
    refreshTokenService envW 20 db2W t0w = (.error .invalidRefreshToken, db2W) ∧
    isAuthenticationError .invalidRefreshToken = true :=
  C1_rotation envW 10 20 dbW t0w rowW rW db2W (by decide) (by decide) (by decide) (by decide)

/-- C2: Revocation.  After logout(u.id), the slot of every row with that id
is empty, and any refresh token minted for u (at any issue time) fails a
subsequent refresh with the unmatched-token error, classified
AuthenticationError, leaving the table unchanged.  The slot-ownership
invariant of reachable states rules out the token sitting in another
row. -/
theorem C2_revocation (env : Env) (iat now2 : Nat) (db : DB) (u : UserRow)
    (hown : SlotOwned db) :
    (logout db u.id).1 = .ok { message := "Logged out successfully" } ∧
    (∀ v ∈ (logout db u.id).2, v.id = u.id → v.refreshToken = none) ∧
    refreshTokenService env now2 (logout db u.id).2 (generateRefreshToken env u iat)
      = (.error .invalidRefreshToken, (logout db u.id).2) ∧
    isAuthenticationError .invalidRefreshToken = true := by
  have hsnd : (logout db u.id).2 = clearRefreshToken db u.id := rfl
  refine ⟨rfl, ?_, ?_, rfl⟩
  · intro v hv hvid
    rw [hsnd] at hv
    unfold clearRefreshToken at hv
    rcases List.mem_map.mp hv with ⟨w, hw, rfl⟩
    by_cases hcase : w.id = u.id
    · simp [hcase]
    · simp [hcase] at hvid ⊢
  · have hnone : findUserByRefreshToken (clearRefreshToken db u.id)
        (generateRefreshToken env u iat) = none := by
      unfold findUserByRefreshToken
      rw [List.find?_eq_none]
      intro v hv
      unfold clearRefreshToken at hv
      rcases List.mem_map.mp hv with ⟨w, hw, rfl⟩
      by_cases hcase : w.id = u.id
      · simp [hcase]
      · simp [hcase]
        intro hq
        have hid : (generateRefreshToken env u iat).id = w.id := slotOk_id (hown w hw) hq
        exact absurd (by rw [← hid]; rfl) hcase
    rw [hsnd]
    unfold refreshTokenService
    rw [hnone]

theorem C2_revocation_witness :
    (logout dbW rowW.id).1 = .ok { message := "Logged out successfully" } ∧
    (∀ v ∈ (logout dbW rowW.id).2, v.id = rowW.id → v.refreshToken = none) ∧
    refreshTokenService envW 20 (logout dbW rowW.id).2 (generateRefreshToken envW rowW 0)
      = (.error .invalidRefreshToken, (logout dbW rowW.id).2) ∧
    isAuthenticationError .invalidRefreshToken = true :=
  C2_revocation envW 0 20 dbW rowW (by decide)

/-- C3: Anti-enumeration.  A login with an unknown (normalized) email and a
login with a known email but failing password comparison both return the
very same thrown error value, Error with message Invalid credentials, and
neither writes to the table, so the observable failure does not reveal
which check failed. -/
theorem C3_generic_failure (env : Env) (now : Nat) (db : DB)
    (emailA passwordA emailB passwordB : String) (u : UserRow)
    (hA : findByEmail db emailA = none)
    (hB : findByEmail db emailB = some u)
    (hpw : bcryptCompare passwordB u.password = false) :
    login env now db emailA passwordA = (.error .invalidCredentials, db) ∧
    login env now db emailB passwordB = (.error .invalidCredentials, db) ∧
    (login env now db emailA passwordA).1 = (login env now db emailB passwordB).1 ∧
    errMessage .invalidCredentials = "Invalid credentials" := by
  have h1 : login env now db emailA passwordA = (.error .invalidCredentials, db) := by
    unfold login
    rw [hA]
  have h2 : login env now db emailB passwordB = (.error .invalidCredentials, db) := by
    unfold login
    rw [hB]
    simp [hpw]
  exact ⟨h1, h2, by rw [h1, h2], rfl⟩

theorem C3_generic_failure_witness :
    login envW 5 dbW ("zz@q.com") ("pw1") = (.error .invalidCredentials, dbW) ∧
    login envW 5 dbW ("A@B.com") ("wrong") = (.error .invalidCredentials, dbW) ∧
    (login envW 5 dbW ("zz@q.com") ("pw1")).1 = (login envW 5 dbW ("A@B.com") ("wrong")).1 ∧
    errMessage .invalidCredentials = "Invalid credentials" :=
  C3_generic_failure envW 5 dbW ("zz@q.com") ("pw1") ("A@B.com") ("wrong") rowW
    (by decide) (by decide) (by decide)

/-- C4: Refresh atomicity on verification failure.  When refresh finds a
user whose slot equals the presented token but jwt.verify against the
refresh secret fails, the call fails with that verification error
(classified AuthenticationError) and the table, hence the slot, is exactly
unchanged: rotation has not occurred. -/
theorem C4_refresh_atomicity (env : Env) (now : Nat) (db : DB) (t : SignedToken)
    (u : UserRow) (e : JsErr)
    (hfind : findUserByRefreshToken db t = some u)
    (hver : jwtVerify t env.JWT_REFRESH_SECRET now = .error e) :
    refreshTokenService env now db t = (.error e, db) ∧
    isAuthenticationError e = true := by
  constructor
  · unfold refreshTokenService
    rw [hfind, hver]
  · unfold jwtVerify at hver
    split_ifs at hver with h1 h2
    · injection hver with he
      rw [← he]
      rfl
    · injection hver with he
      rw [← he]
      rfl

theorem C4_refresh_atomicity_witness :
    refreshTokenService envW 700000 dbW t0w = (.error .tokenExpired, dbW) ∧
    isAuthenticationError .tokenExpired = true :=
  C4_refresh_atomicity envW 700000 dbW t0w rowW .tokenExpired (by decide) (by decide)

/-- C5: Register on a fresh email.  Evaluating the code at a concrete fresh
email shows the success path never persists a user: after the duplicate
check passes, Auth.service.js reads the free identifier pool (never
imported in that module), raising ReferenceError: pool is not defined
before the INSERT, so no row is written and no result is returned. -/
theorem C5_register_pool_reference_error :
    register [] ("A@B.com") ("pw123456") (some 1)
      = (.error (.referenceError ("pool")), []) := by decide

/-- C6: Uniqueness and conflict atomicity.  When a row for the normalized
email already exists (and is unique), registering any letter-case variant
of it fails with Error Email already in use, classified ConflictError, the
table is returned unchanged (no write), and exactly one row for the
normalized email exists afterwards. -/
theorem C6_register_conflict (db : DB) (emailA emailB password : String)
    (rolId : Option Nat) (u : UserRow)
    (hnorm : jsToLowerCase emailB = jsToLowerCase emailA)
    (hfound : findByEmail db emailA = some u)
    (hcount : (db.filter (fun v => v.email == jsToLowerCase emailA)).length = 1) :
    register db emailB password rolId = (.error .emailAlreadyInUse, db) ∧
    ((register db emailB password rolId).2.filter
        (fun v => v.email == jsToLowerCase emailA)).length = 1 ∧
    isConflictError .emailAlreadyInUse = true ∧
    errMessage .emailAlreadyInUse = "Email already in use" := by
  have hfB : findByEmail db emailB = some u := by
    unfold findByEmail at hfound ⊢
    rw [hnorm]
    exact hfound
  have h1 : register db emailB password rolId = (.error .emailAlreadyInUse, db) := by
    unfold register
    rw [hfB]
  exact ⟨h1, by rw [h1]; exact hcount, rfl, rfl⟩

theorem C6_register_conflict_witness :
    register dbW ("A@B.com") ("xx") (some 2) = (.error .emailAlreadyInUse, dbW) ∧
    ((register dbW ("A@B.com") ("xx") (some 2)).2.filter
        (fun v => v.email == jsToLowerCase ("a@b.com"))).length = 1 ∧
    isConflictError .emailAlreadyInUse = true ∧
    errMessage .emailAlreadyInUse = "Email already in use" :=
  C6_register_conflict dbW ("a@b.com") ("A@B.com") ("xx") (some 2) rowW
    (by decide) (by decide) (by decide)

/-- C7: Token issuer contract.  The access token encodes exactly id, email
and rolId, is signed with the access secret and expires 15 minutes after
issuance; the refresh token encodes id and email, is signed with the
refresh secret and expires 7 days after issuance; and with distinct
secrets an access token never passes the refresh verification used by
refresh, so refresh can never succeed on it. -/
theorem C7_token_issuer (env : Env) (user : UserRow) (now now2 : Nat) (db : DB)
    (hsec : env.JWT_SECRET ≠ env.JWT_REFRESH_SECRET) :
    (generateAccessToken env user now).id = user.id ∧
    (generateAccessToken env user now).email = user.email ∧
    (generateAccessToken env user now).rolId = some user.rolId ∧
    (generateAccessToken env user now).secret = env.JWT_SECRET ∧
    (generateAccessToken env user now).iat = now ∧
    (generateAccessToken env user now).exp = now + 15 * 60 ∧
    (generateRefreshToken env user now).id = user.id ∧
    (generateRefreshToken env user now).email = user.email ∧
    (generateRefreshToken env user now).rolId = none ∧
    (generateRefreshToken env user now).secret = env.JWT_REFRESH_SECRET ∧
    (generateRefreshToken env user now).iat = now ∧
    (generateRefreshToken env user now).exp = now + 7 * 24 * 60 * 60 ∧
    jwtVerify (generateAccessToken env user now) env.JWT_REFRESH_SECRET now2
      = .error .invalidSignature ∧
    (∀ res db2, refreshTokenService env now2 db (generateAccessToken env user now)
      ≠ (.ok res, db2)) := by
  have hver : jwtVerify (generateAccessToken env user now) env.JWT_REFRESH_SECRET now2
      = .error .invalidSignature := by
    simp [jwtVerify, generateAccessToken, jwtSign, hsec]
  refine ⟨rfl, rfl, rfl, rfl, rfl, rfl, rfl, rfl, rfl, rfl, rfl, rfl, hver, ?_⟩
  intro res db2 h
  unfold refreshTokenService at h
  cases hf : findUserByRefreshToken db (generateAccessToken env user now) with
  | none =>
      rw [hf] at h
      simp at h
  | some w =>
      rw [hf, hver] at h
      simp at h

theorem C7_token_issuer_witness :
    (generateAccessToken envW userW 3).id = userW.id ∧
    (generateAccessToken envW userW 3).email = userW.email ∧
    (generateAccessToken envW userW 3).rolId = some userW.rolId ∧
    (generateAccessToken envW userW 3).secret = envW.JWT_SECRET ∧
    (generateAccessToken envW userW 3).iat = 3 ∧
    (generateAccessToken envW userW 3).exp = 3 + 15 * 60 ∧
    (generateRefreshToken envW userW 3).id = userW.id ∧
    (generateRefreshToken envW userW 3).email = userW.email ∧
    (generateRefreshToken envW userW 3).rolId = none ∧
    (generateRefreshToken envW userW 3).secret = envW.JWT_REFRESH_SECRET ∧
    (generateRefreshToken envW userW 3).iat = 3 ∧
    (generateRefreshToken envW userW 3).exp = 3 + 7 * 24 * 60 * 60 ∧
    jwtVerify (generateAccessToken envW userW 3) envW.JWT_REFRESH_SECRET 9
      = .error .invalidSignature ∧
    (∀ res db2, refreshTokenService envW 9 dbW (generateAccessToken envW userW 3)
      ≠ (.ok res, db2)) :=
  C7_token_issuer envW userW 3 9 dbW (by decide)

/-- C8 counterexample: a login failure with bad credentials reaches the
HTTP caller as 500, not 401.  At the concrete input, login on an empty
store throws the plain Error Invalid credentials, which carries no
statusCode, and the shared error handler turns any statusCode-less error
into 500 Internal Server Error. -/
theorem C8_login_failure_maps_to_500 :
    (login envW 0 [] ("x@y.com") ("pw")).1 = .error .invalidCredentials ∧
    errorHandler (toThrownErr .invalidCredentials)
      = { status := 500, message := "Internal Server Error" } ∧
    (errorHandler (toThrownErr .invalidCredentials)).status ≠ 401 := by
  decide

/-- C8 amended: the shared error handler maps an error carrying a
statusCode to that status with its message, and every other error to
500 Internal Server Error; since every error the Session Workflow throws
is a plain Error without statusCode, all its failures (bad credentials,
duplicate email, bad refresh tokens) reach the HTTP caller as 500. -/
theorem C8_error_mapping_amended (e : JsErr) (err : ThrownErr) (c : Nat)
    (hc : err.statusCode = some c) :
    (toThrownErr e).statusCode = none ∧
    errorHandler (toThrownErr e) = { status := 500, message := "Internal Server Error" } ∧
    errorHandler err = { status := c, message := err.message } := by
  refine ⟨rfl, rfl, ?_⟩
  unfold errorHandler
  rw [hc]

theorem C8_error_mapping_amended_witness :
    (toThrownErr .invalidCredentials).statusCode = none ∧
    errorHandler (toThrownErr .invalidCredentials)
      = { status := 500, message := "Internal Server Error" } ∧
    errorHandler { statusCode := some 404, message := "Not found" }
      = { status := 404, message := "Not found" } :=
  C8_error_mapping_amended .invalidCredentials { statusCode := some 404, message := "Not found" }
    404 rfl

/-- C9: Logout idempotence and no-op success.  logout always reports the
success message, even when no row has the given id; running it twice
succeeds again and leaves the same state; every row with the given id has
an empty slot afterwards; and when no row has the id the table is exactly
unchanged. -/
theorem C9_logout_idempotent_noop (db : DB) (uid : Nat) :
    (logout db uid).1 = .ok { message := "Logged out successfully" } ∧
    (logout ((logout db uid).2) uid).1 = .ok { message := "Logged out successfully" } ∧
    (logout ((logout db uid).2) uid).2 = (logout db uid).2 ∧
    (∀ v ∈ (logout db uid).2, v.id = uid → v.refreshToken = none) ∧
    ((∀ v ∈ db, v.id ≠ uid) → (logout db uid).2 = db) := by
  refine ⟨rfl, rfl, ?_, ?_, ?_⟩
  · exact clearRefreshToken_idem db uid
  · intro v hv hvid
    unfold logout clearRefreshToken at hv
    rcases List.mem_map.mp hv with ⟨w, hw, rfl⟩
    by_cases hcase : w.id = uid
    · simp [hcase]
    · simp [hcase] at hvid ⊢
  · intro hno
    show clearRefreshToken db uid = db
    unfold clearRefreshToken
    have hfix : ∀ a ∈ db, (if a.id == uid then { a with refreshToken := none } else a) = a := by
      intro a ha
      simp [hno a ha]
    exact (List.map_congr_left hfix).trans (List.map_id db)

theorem C9_logout_idempotent_noop_witness :
    (logout dbW 1).1 = .ok { message := "Logged out successfully" } ∧
    (logout ((logout dbW 1).2) 1).1 = .ok { message := "Logged out successfully" } ∧
    (logout ((logout dbW 1).2) 1).2 = (logout dbW 1).2 ∧
    (∀ v ∈ (logout dbW 1).2, v.id = 1 → v.refreshToken = none) ∧
    ((∀ v ∈ dbW, v.id ≠ 1) → (logout dbW 1).2 = dbW) :=
  C9_logout_idempotent_noop dbW 1

/-- C10: Logout frame property.  The table after logout is exactly the
pointwise image that rewrites only the refreshToken field, clearing it on
rows whose id matches and leaving it as it was elsewhere; id, email,
password hash and rolId of every row, the set and order of rows, and the
length of the table are all preserved. -/
theorem C10_logout_frame (db : DB) (uid : Nat) :
    (logout db uid).2 = db.map (fun v =>
      { v with refreshToken := if v.id = uid then none else v.refreshToken }) := by
  show clearRefreshToken db uid = _
  unfold clearRefreshToken
  apply List.map_congr_left
  intro a _
  by_cases h : a.id = uid
  · simp [h]
  · simp [h]

end Tessiture
